import Mathlib

/-!
Verification development for the rcl wait-set / guard-condition core
(`rcl/wait.h`, `rcl/guard_condition.h`).

The repository ships only the public headers: the struct `rcl_wait_set_t`,
the function declarations, and their documentation comments. The function
bodies (`rcl/src/rcl/wait.c`, `rcl/src/rcl/guard_condition.c`) and the rmw
transport layer are not part of the sources, so every operation below is a
shallow functional model built from the header documentation and the
specification. Pointers to subscriptions and guard conditions are modelled
by opaque natural-number identities; an absent (NULL) slot is `none`.
The external transport (`rmw_wait`) is modelled by a report of which
handles became ready, whether an interrupt occurred, and how long the call
blocked.
-/

set_option autoImplicit false

namespace RclWait

/-- Return codes of the rcl layer; names follow `rcl/types.h` usage in the
headers: `RCL_RET_OK`, `RCL_RET_TIMEOUT`, `RCL_RET_NOT_INIT`,
`RCL_RET_WAIT_SET_FULL`, `RCL_RET_WAIT_SET_EMPTY`, etc. The spec error
kinds map as: NotInitialized ↦ `RCL_RET_NOT_INIT`, AlreadyInitialized ↦
`RCL_RET_ALREADY_INIT`, CapacityExceeded ↦ `RCL_RET_WAIT_SET_FULL`,
AllocationError ↦ `RCL_RET_BAD_ALLOC`, WaitSetEmpty ↦
`RCL_RET_WAIT_SET_EMPTY`, Timeout ↦ `RCL_RET_TIMEOUT`, InvalidHandle ↦
`RCL_RET_INVALID_HANDLE`, InvalidContext ↦ `RCL_RET_INVALID_CONTEXT`,
generic Error ↦ `RCL_RET_ERROR`. -/
inductive rcl_ret_t where
  | RCL_RET_OK
  | RCL_RET_ERROR
  | RCL_RET_TIMEOUT
  | RCL_RET_ALREADY_INIT
  | RCL_RET_NOT_INIT
  | RCL_RET_WAIT_SET_FULL
  | RCL_RET_WAIT_SET_EMPTY
  | RCL_RET_BAD_ALLOC
  | RCL_RET_INVALID_HANDLE
  | RCL_RET_INVALID_CONTEXT
  deriving DecidableEq, Repr

/-- Time duration as in `rcl/time.h`: seconds and nanoseconds
(`rcl_time_t timeout = {1, 0};` in the usage example of the header). -/
structure rcl_time_t where
  sec : Nat
  nsec : Nat
  deriving DecidableEq, Repr

/-- Total duration in nanoseconds; a zero-length timeout is one whose
seconds and nanoseconds are both 0. -/
def rcl_time_total_ns (t : rcl_time_t) : Nat :=
  t.sec * 1000000000 + t.nsec

/-- The wait set struct from `rcl/wait.h` lines 34-49. Each pointer array
is a list of optional handle identities whose length is the allocated
capacity; `size_of_subscriptions` / `size_of_guard_conditions` are the
declared sizes; the two `__current_..._offset` fields are the insertion
cursors; `allocator` is modelled by its observable behavior (whether an
allocation of a given count succeeds); `pruned` is the flag documented as
"If set to true, actions like add_subscription will fail until cleared";
`impl` models whether the implementation storage pointer is non-NULL,
i.e. whether the wait set has been initialized (NULL in the
zero-initialized form). -/
structure rcl_wait_set_t where
  subscriptions : List (Option Nat)
  size_of_subscriptions : Nat
  __current_subscription_offset : Nat
  guard_conditions : List (Option Nat)
  size_of_guard_conditions : Nat
  __current_guard_condition_offset : Nat
  allocator : Nat → Bool
  pruned : Bool
  impl : Bool

/-- Modelled from the spec: `rcl_get_zero_initialized_wait_set` (body in
the missing `wait.c`) returns a `rcl_wait_set_t` with members set to
NULL / zero; the zero-initialized allocator performs no successful
allocation. -/
def rcl_get_zero_init_wait_set : rcl_wait_set_t :=
  { subscriptions := []
    size_of_subscriptions := 0
    __current_subscription_offset := 0
    guard_conditions := []
    size_of_guard_conditions := 0
    __current_guard_condition_offset := 0
    allocator := fun _ => false
    pruned := false
    impl := false }

/-- Modelled from the spec: `rcl_wait_set_init` (body in the missing
`wait.c`). Allocates storage sized exactly to the given capacities with the
given allocator, zeroes both cursors, clears the pruned flag, and stores
the allocator. Fails with `RCL_RET_ALREADY_INIT` if the wait set is not
zero initialized, and with `RCL_RET_BAD_ALLOC` (AllocationError) if the
allocator fails. -/
def rcl_wait_set_init (ws : rcl_wait_set_t)
    (number_of_subscriptions number_of_guard_conditions : Nat)
    (allocator : Nat → Bool) : rcl_ret_t × rcl_wait_set_t :=
  if ws.impl then
    (rcl_ret_t.RCL_RET_ALREADY_INIT, ws)
  else if allocator number_of_subscriptions && allocator number_of_guard_conditions then
    (rcl_ret_t.RCL_RET_OK,
      { subscriptions := List.replicate number_of_subscriptions none
        size_of_subscriptions := number_of_subscriptions
        __current_subscription_offset := 0
        guard_conditions := List.replicate number_of_guard_conditions none
        size_of_guard_conditions := number_of_guard_conditions
        __current_guard_condition_offset := 0
        allocator := allocator
        pruned := false
        impl := true })
  else
    (rcl_ret_t.RCL_RET_BAD_ALLOC, ws)

/-- Modelled from the spec: `rcl_wait_set_fini` (body in the missing
`wait.c`). Releases the storage with the stored allocator (invisible in
this model) and leaves the wait set zero initialized again, "and so
calling this function or rcl_wait_set_init() immediately after will
succeed"; on a zero-initialized wait set it does nothing and returns
`RCL_RET_OK`. -/
def rcl_wait_set_fini ( _ws : rcl_wait_set_t) : rcl_ret_t × rcl_wait_set_t :=
  (rcl_ret_t.RCL_RET_OK, rcl_get_zero_init_wait_set)

/-- Modelled from the spec: `rcl_wait_set_add_subscription` (body in the
missing `wait.c`). Stores the handle in the next empty spot (the current
cursor) and advances the cursor. Fails `RCL_RET_NOT_INIT` on a
zero-initialized wait set, fails while the pruned flag is set ("actions
like add_subscription will fail until cleared"), and fails
`RCL_RET_WAIT_SET_FULL` (CapacityExceeded) when the sequence is full. -/
def rcl_wait_set_add_subscription (ws : rcl_wait_set_t) (subscription : Nat) :
    rcl_ret_t × rcl_wait_set_t :=
  if !ws.impl then
    (rcl_ret_t.RCL_RET_NOT_INIT, ws)
  else if ws.pruned then
    (rcl_ret_t.RCL_RET_ERROR, ws)
  else if ws.size_of_subscriptions ≤ ws.__current_subscription_offset then
    (rcl_ret_t.RCL_RET_WAIT_SET_FULL, ws)
  else
    (rcl_ret_t.RCL_RET_OK,
      { ws with
        subscriptions :=
          ws.subscriptions.set ws.__current_subscription_offset (some subscription)
        __current_subscription_offset := ws.__current_subscription_offset + 1 })

/-- Modelled from the spec: `rcl_wait_set_add_guard_condition` (body in
the missing `wait.c`); "behaves exactly the same as for subscriptions". -/
def rcl_wait_set_add_guard_condition (ws : rcl_wait_set_t) (guard_condition : Nat) :
    rcl_ret_t × rcl_wait_set_t :=
  if !ws.impl then
    (rcl_ret_t.RCL_RET_NOT_INIT, ws)
  else if ws.pruned then
    (rcl_ret_t.RCL_RET_ERROR, ws)
  else if ws.size_of_guard_conditions ≤ ws.__current_guard_condition_offset then
    (rcl_ret_t.RCL_RET_WAIT_SET_FULL, ws)
  else
    (rcl_ret_t.RCL_RET_OK,
      { ws with
        guard_conditions :=
          ws.guard_conditions.set ws.__current_guard_condition_offset (some guard_condition)
        __current_guard_condition_offset := ws.__current_guard_condition_offset + 1 })

/-- Modelled from the spec: `rcl_wait_set_clear_subscriptions` (body in
the missing `wait.c`). Sets every entry of the subscription sequence to
NULL, resets its cursor to 0 and clears the pruned flag ("fail until
cleared"); fails `RCL_RET_NOT_INIT` on a zero-initialized wait set. -/
def rcl_wait_set_clear_subscriptions (ws : rcl_wait_set_t) :
    rcl_ret_t × rcl_wait_set_t :=
  if !ws.impl then
    (rcl_ret_t.RCL_RET_NOT_INIT, ws)
  else
    (rcl_ret_t.RCL_RET_OK,
      { ws with
        subscriptions := List.replicate ws.size_of_subscriptions none
        __current_subscription_offset := 0
        pruned := false })

/-- Modelled from the spec: `rcl_wait_set_clear_guard_conditions` (body
in the missing `wait.c`); "behaves exactly the same as for
subscriptions". -/
def rcl_wait_set_clear_guard_conditions (ws : rcl_wait_set_t) :
    rcl_ret_t × rcl_wait_set_t :=
  if !ws.impl then
    (rcl_ret_t.RCL_RET_NOT_INIT, ws)
  else
    (rcl_ret_t.RCL_RET_OK,
      { ws with
        guard_conditions := List.replicate ws.size_of_guard_conditions none
        __current_guard_condition_offset := 0
        pruned := false })

/-- Modelled from the spec: `rcl_wait_set_resize_subscriptions` (body in
the missing `wait.c`). If the requested size matches the current size, no
allocation is done (no-op). A size of 0 just deallocates and assigns NULL
to the array. Otherwise the sequence is deallocated and reallocated with
the stored allocator; all values end up NULL (effectively a clear, so the
cursor is reset). May be called on a zero-initialized wait set; fails
only with `RCL_RET_BAD_ALLOC` (AllocationError). -/
def rcl_wait_set_resize_subscriptions (ws : rcl_wait_set_t) (size : Nat) :
    rcl_ret_t × rcl_wait_set_t :=
  if size = ws.size_of_subscriptions then
    (rcl_ret_t.RCL_RET_OK, ws)
  else if size = 0 then
    (rcl_ret_t.RCL_RET_OK,
      { ws with
        subscriptions := []
        size_of_subscriptions := 0
        __current_subscription_offset := 0 })
  else if ws.allocator size then
    (rcl_ret_t.RCL_RET_OK,
      { ws with
        subscriptions := List.replicate size none
        size_of_subscriptions := size
        __current_subscription_offset := 0 })
  else
    (rcl_ret_t.RCL_RET_BAD_ALLOC, ws)

/-- Modelled from the spec: `rcl_wait_set_resize_guard_conditions` (body
in the missing `wait.c`); "behaves exactly the same as for
subscriptions". -/
def rcl_wait_set_resize_guard_conditions (ws : rcl_wait_set_t) (size : Nat) :
    rcl_ret_t × rcl_wait_set_t :=
  if size = ws.size_of_guard_conditions then
    (rcl_ret_t.RCL_RET_OK, ws)
  else if size = 0 then
    (rcl_ret_t.RCL_RET_OK,
      { ws with
        guard_conditions := []
        size_of_guard_conditions := 0
        __current_guard_condition_offset := 0 })
  else if ws.allocator size then
    (rcl_ret_t.RCL_RET_OK,
      { ws with
        guard_conditions := List.replicate size none
        size_of_guard_conditions := size
        __current_guard_condition_offset := 0 })
  else
    (rcl_ret_t.RCL_RET_BAD_ALLOC, ws)

/-- Modelled from the spec: the outcome of one call into the external
transport (`rmw_wait`, outside this repository). `sub_ready h` /
`guard_ready h` record whether the resource with identity `h` became
ready during the call, `interrupted` whether an external interrupt
(guard-condition trigger) ended the block, and `elapsed_ns` how long the
call actually blocked. -/
structure TransportReport where
  sub_ready : Nat → Bool
  guard_ready : Nat → Bool
  interrupted : Bool
  elapsed_ns : Nat

/-- Pruning of a single slot: a present entry is retained exactly when its
resource became ready, every other entry is overwritten with NULL. -/
def pruneEntry (ready : Nat → Bool) : Option Nat → Option Nat
  | some h => if ready h then some h else none
  | none => none

/-- In-place, order-preserving pruning of one sequence. -/
def pruneSeq (ready : Nat → Bool) (xs : List (Option Nat)) : List (Option Nat) :=
  xs.map (pruneEntry ready)

/-- Whether at least one slot of a sequence is present (non-NULL). -/
def anyPresent (xs : List (Option Nat)) : Bool :=
  xs.any Option.isSome

/-- Modelled from the spec: `rcl_wait` (body in the missing `wait.c`).
Fails `RCL_RET_NOT_INIT` on a zero-initialized wait set and
`RCL_RET_WAIT_SET_EMPTY` when both capacities are 0, in both cases
without consulting the transport. Otherwise the entries and the timeout
are handed to the transport, whose outcome is the given report; on
return every entry is retained iff its resource became ready and every
other slot is set to NULL, the pruned flag is set, and the result is
`RCL_RET_OK` if at least one entry is still present, else
`RCL_RET_TIMEOUT`. The timeout argument is `const` and is returned
unchanged as the third component (modelling the caller-visible timeout
object after the call). -/
def rcl_wait (ws : rcl_wait_set_t) (timeout : Option rcl_time_t)
    (r : TransportReport) : rcl_ret_t × rcl_wait_set_t × Option rcl_time_t :=
  if !ws.impl then
    (rcl_ret_t.RCL_RET_NOT_INIT, ws, timeout)
  else if ws.size_of_subscriptions = 0 ∧ ws.size_of_guard_conditions = 0 then
    (rcl_ret_t.RCL_RET_WAIT_SET_EMPTY, ws, timeout)
  else
    let subs := pruneSeq r.sub_ready ws.subscriptions
    let gcs := pruneSeq r.guard_ready ws.guard_conditions
    let ws' := { ws with subscriptions := subs, guard_conditions := gcs, pruned := true }
    if anyPresent subs || anyPresent gcs then
      (rcl_ret_t.RCL_RET_OK, ws', timeout)
    else
      (rcl_ret_t.RCL_RET_TIMEOUT, ws', timeout)

/-- Modelled from the spec: the contract the external transport obeys for
each timeout encoding. An absent (NULL) timeout blocks indefinitely, so
the transport only returns once some registered entry became ready or an
external interrupt occurred; a zero-length duration is a non-blocking
poll returning immediately; a positive duration blocks at most that
long. -/
def transport_respects_timeout (ws : rcl_wait_set_t) (timeout : Option rcl_time_t)
    (r : TransportReport) : Prop :=
  match timeout with
  | none =>
      anyPresent (pruneSeq r.sub_ready ws.subscriptions) = true ∨
      anyPresent (pruneSeq r.guard_ready ws.guard_conditions) = true ∨
      r.interrupted = true
  | some t =>
      if rcl_time_total_ns t = 0 then r.elapsed_ns = 0
      else r.elapsed_ns ≤ rcl_time_total_ns t

/-- Lifecycle states of a guard condition, per the spec state machine:
Uninitialized → Initialized (via init) → Finalized (via fini,
terminal). -/
inductive GuardConditionState where
  | uninit
  | inited
  | finalized
  deriving DecidableEq, Repr

/-- Modelled from the spec: `rcl_guard_condition_init` (body in the
missing `guard_condition.c`). Attaches an uninitialized guard condition
to a valid node/context; fails `RCL_RET_INVALID_CONTEXT` when the
context is not valid, and with a generic error in any other state. -/
def rcl_guard_condition_init (st : GuardConditionState) (node_valid : Bool) :
    rcl_ret_t × GuardConditionState :=
  if !node_valid then
    (rcl_ret_t.RCL_RET_INVALID_CONTEXT, st)
  else
    match st with
    | GuardConditionState.uninit => (rcl_ret_t.RCL_RET_OK, GuardConditionState.inited)
    | s => (rcl_ret_t.RCL_RET_ERROR, s)

/-- Modelled from the spec: `rcl_guard_condition_fini` (body in the
missing `guard_condition.c`). Detaches and releases an initialized guard
condition, after which the handle is permanently invalid; fails
`RCL_RET_INVALID_HANDLE` if never initialized or already finalized. -/
def rcl_guard_condition_fini (st : GuardConditionState) :
    rcl_ret_t × GuardConditionState :=
  match st with
  | GuardConditionState.inited => (rcl_ret_t.RCL_RET_OK, GuardConditionState.finalized)
  | s => (rcl_ret_t.RCL_RET_INVALID_HANDLE, s)

/-- Modelled from the spec: `rcl_trigger_guard_condition` (body in the
missing `guard_condition.c`). Succeeds only on an initialized guard
condition; on one that never had init called or had fini called it fails
with `RCL_RET_INVALID_HANDLE` (the header: "guard condition is invalid
(never called init, called fini, or invalid node)"). The model is a total
function: it never crashes nor blocks. -/
def rcl_trigger_guard_condition (st : GuardConditionState) : rcl_ret_t :=
  match st with
  | GuardConditionState.inited => rcl_ret_t.RCL_RET_OK
  | _ => rcl_ret_t.RCL_RET_INVALID_HANDLE

/-- An allocator that always succeeds, standing for
`rcl_get_default_allocator()` in concrete scenarios. -/
def alloc_always : Nat → Bool := fun _ => true

/-- A concrete transport report: nothing became ready, no interrupt, no
time elapsed. -/
def report_none : TransportReport :=
  { sub_ready := fun _ => false
    guard_ready := fun _ => false
    interrupted := false
    elapsed_ns := 0 }

/-- A concrete transport report: only the resource with identity 1 became
ready, immediately. -/
def report_only1 : TransportReport :=
  { sub_ready := fun h => h = 1
    guard_ready := fun _ => false
    interrupted := false
    elapsed_ns := 0 }

/-- Iterated `rcl_wait_set_add_subscription`, returning the list of
return codes in call order together with the final wait set. -/
def addAllSubs (ws : rcl_wait_set_t) (subs : List Nat) :
    List rcl_ret_t × rcl_wait_set_t :=
  match subs with
  | [] => ([], ws)
  | s :: rest =>
    let step := rcl_wait_set_add_subscription ws s
    let next := addAllSubs step.2 rest
    (step.1 :: next.1, next.2)

/-- Iterated `rcl_wait_set_add_guard_condition`, returning the list of
return codes in call order together with the final wait set. -/
def addAllGuards (ws : rcl_wait_set_t) (gcs : List Nat) :
    List rcl_ret_t × rcl_wait_set_t :=
  match gcs with
  | [] => ([], ws)
  | gcond :: rest =>
    let step := rcl_wait_set_add_guard_condition ws gcond
    let next := addAllGuards step.2 rest
    (step.1 :: next.1, next.2)

/-- The scenario wait set of the spec: capacities (2, 0) with the two
message handles 1 and 2 added. -/
def ws_ab : rcl_wait_set_t :=
  (addAllSubs (rcl_wait_set_init rcl_get_zero_init_wait_set 2 0 alloc_always).2 [1, 2]).2

/-- The structural invariant of the wait set: for each sequence the allocated
length equals its declared size and each insertion cursor lies within
[0, capacity]. -/
def WaitSetInv (ws : rcl_wait_set_t) : Prop :=
  ws.subscriptions.length = ws.size_of_subscriptions ∧
  ws.guard_conditions.length = ws.size_of_guard_conditions ∧
  ws.__current_subscription_offset ≤ ws.size_of_subscriptions ∧
  ws.__current_guard_condition_offset ≤ ws.size_of_guard_conditions

/-- Wait-set states reachable from the zero-initialized value through the
public operations. -/
inductive ReachableWaitSet : rcl_wait_set_t → Prop where
  | zero : ReachableWaitSet rcl_get_zero_init_wait_set
  | step_init (ws : rcl_wait_set_t) (h g : Nat) (a : Nat → Bool) :
      ReachableWaitSet ws → ReachableWaitSet (rcl_wait_set_init ws h g a).2
  | step_fini (ws : rcl_wait_set_t) :
      ReachableWaitSet ws → ReachableWaitSet (rcl_wait_set_fini ws).2
  | step_add_sub (ws : rcl_wait_set_t) (s : Nat) :
      ReachableWaitSet ws → ReachableWaitSet (rcl_wait_set_add_subscription ws s).2
  | step_add_guard (ws : rcl_wait_set_t) (gcond : Nat) :
      ReachableWaitSet ws → ReachableWaitSet (rcl_wait_set_add_guard_condition ws gcond).2
  | step_clear_sub (ws : rcl_wait_set_t) :
      ReachableWaitSet ws → ReachableWaitSet (rcl_wait_set_clear_subscriptions ws).2
  | step_clear_guard (ws : rcl_wait_set_t) :
      ReachableWaitSet ws → ReachableWaitSet (rcl_wait_set_clear_guard_conditions ws).2
  | step_resize_sub (ws : rcl_wait_set_t) (n : Nat) :
      ReachableWaitSet ws → ReachableWaitSet (rcl_wait_set_resize_subscriptions ws n).2
  | step_resize_guard (ws : rcl_wait_set_t) (n : Nat) :
      ReachableWaitSet ws → ReachableWaitSet (rcl_wait_set_resize_guard_conditions ws n).2
  | step_wait (ws : rcl_wait_set_t) (t : Option rcl_time_t) (r : TransportReport) :
      ReachableWaitSet ws → ReachableWaitSet (rcl_wait ws t r).2.1

/-! Helper lemmas shared by several results. -/

/-- A successful `rcl_wait_set_init` from the zero-initialized value,
spelled out. -/
theorem rcl_wait_set_init_zero (h g : Nat) (a : Nat → Bool)
    (ha : a h = true) (hag : a g = true) :
    rcl_wait_set_init rcl_get_zero_init_wait_set h g a =
      (rcl_ret_t.RCL_RET_OK,
        { subscriptions := List.replicate h none
          size_of_subscriptions := h
          __current_subscription_offset := 0
          guard_conditions := List.replicate g none
          size_of_guard_conditions := g
          __current_guard_condition_offset := 0
          allocator := a
          pruned := false
          impl := true }) := by
  simp [rcl_wait_set_init, rcl_get_zero_init_wait_set, ha, hag]

/-- Slot-wise description of `pruneSeq`. -/
theorem pruneSeq_getElem? (ready : Nat → Bool) (xs : List (Option Nat)) (i : Nat) :
    (pruneSeq ready xs)[i]? = (xs[i]?).map (pruneEntry ready) := by
  simp [pruneSeq]

/-- `pruneEntry` keeps exactly the ready present entries. -/
theorem pruneEntry_eq_some (ready : Nat → Bool) (o : Option Nat) (h : Nat) :
    pruneEntry ready o = some h ↔ (o = some h ∧ ready h = true) := by
  cases o with
  | none => simp [pruneEntry]
  | some h2 =>
    by_cases hr : ready h2 = true
    · simp only [pruneEntry, hr, if_true, Option.some.injEq]
      constructor
      · intro he
        exact ⟨by rw [he], by rw [← he]; exact hr⟩
      · intro hh
        exact hh.1
    · simp only [pruneEntry, Bool.not_eq_true] at hr
      simp only [pruneEntry, hr, Bool.false_eq_true, if_false, Option.some.injEq]
      constructor
      · intro he
        exact absurd he (by simp)
      · intro hh
        rw [hh.1] at hr
        rw [hr] at hh
        exact absurd hh.2 (by simp)

/-- `pruneEntry` maps everything that is not a ready present entry to
NULL. -/
theorem pruneEntry_eq_none (ready : Nat → Bool) (o : Option Nat)
    (h : ∀ x, o = some x → ready x = false) :
    pruneEntry ready o = none := by
  cases o with
  | none => simp [pruneEntry]
  | some h2 => simp [pruneEntry, h h2 rfl]

/-- C5: for every pair of capacities (h, g), `init(h,g)` followed by
`fini()` returns the wait set to its exact zero-initialized value;
`fini` on an already-empty wait set is a successful no-op (idempotent),
and `fini` or `init` called again immediately after a `fini` succeed. -/
theorem C5_lifecycle_roundtrip (h g h2 g2 : Nat) (a a2 : Nat → Bool)
    (ws : rcl_wait_set_t) (ha2 : a2 h2 = true) (hg2 : a2 g2 = true) :
    rcl_wait_set_fini (rcl_wait_set_init rcl_get_zero_init_wait_set h g a).2 =
      (rcl_ret_t.RCL_RET_OK, rcl_get_zero_init_wait_set) ∧
    rcl_wait_set_fini rcl_get_zero_init_wait_set =
      (rcl_ret_t.RCL_RET_OK, rcl_get_zero_init_wait_set) ∧
    rcl_wait_set_fini (rcl_wait_set_fini ws).2 =
      (rcl_ret_t.RCL_RET_OK, rcl_get_zero_init_wait_set) ∧
    (rcl_wait_set_init (rcl_wait_set_fini ws).2 h2 g2 a2).1 = rcl_ret_t.RCL_RET_OK := by
  refine ⟨rfl, rfl, rfl, ?_⟩
  simp [rcl_wait_set_fini, rcl_wait_set_init, rcl_get_zero_init_wait_set, ha2, hg2]

/-- Witness for C5 at concrete capacities. -/
theorem C5_lifecycle_roundtrip_witness :
    (rcl_wait_set_init (rcl_wait_set_fini rcl_get_zero_init_wait_set).2 4 5 alloc_always).1 =
      rcl_ret_t.RCL_RET_OK :=
  (C5_lifecycle_roundtrip 2 3 4 5 alloc_always alloc_always
    rcl_get_zero_init_wait_set rfl rfl).2.2.2

/-- C6: a guard condition follows Uninitialized → Initialized (via init)
→ Finalized (via fini, terminal); `trigger` returns `RCL_RET_OK` exactly
in the Initialized state and `RCL_RET_INVALID_HANDLE` in every other
state (it is a total function: it neither crashes nor blocks). -/
theorem C6_guard_condition_state_machine (st : GuardConditionState) :
    (rcl_trigger_guard_condition st = rcl_ret_t.RCL_RET_OK ↔
      st = GuardConditionState.inited) ∧
    (st ≠ GuardConditionState.inited →
      rcl_trigger_guard_condition st = rcl_ret_t.RCL_RET_INVALID_HANDLE) ∧
    rcl_guard_condition_init GuardConditionState.uninit true =
      (rcl_ret_t.RCL_RET_OK, GuardConditionState.inited) ∧
    rcl_guard_condition_fini GuardConditionState.inited =
      (rcl_ret_t.RCL_RET_OK, GuardConditionState.finalized) ∧
    rcl_guard_condition_fini GuardConditionState.finalized =
      (rcl_ret_t.RCL_RET_INVALID_HANDLE, GuardConditionState.finalized) ∧
    (rcl_guard_condition_init GuardConditionState.finalized true).2 =
      GuardConditionState.finalized := by
  cases st <;> exact ⟨by decide, by decide, rfl, rfl, rfl, rfl⟩

/-- Witness for C6: triggering a finalized guard condition yields
`RCL_RET_INVALID_HANDLE`. -/
theorem C6_guard_condition_state_machine_witness :
    rcl_trigger_guard_condition GuardConditionState.finalized =
      rcl_ret_t.RCL_RET_INVALID_HANDLE :=
  (C6_guard_condition_state_machine GuardConditionState.finalized).2.1 (by decide)

/-- C10: `rcl_wait` never modifies the timeout object it is given; the
value observable after the call equals the value passed in, for every
wait set, timeout and transport outcome. -/
theorem C10_wait_timeout_unchanged (ws : rcl_wait_set_t)
    (timeout : Option rcl_time_t) (r : TransportReport) :
    (rcl_wait ws timeout r).2.2 = timeout := by
  unfold rcl_wait
  split
  · rfl
  · split
    · rfl
    · dsimp only
      split <;> rfl

/-- C2: `rcl_wait` on an initialized wait set whose two capacities are
both 0 fails `RCL_RET_WAIT_SET_EMPTY` with the wait set untouched and
without consulting the transport (the outcome is independent of the
transport report), while on a zero-initialized wait set it fails
`RCL_RET_NOT_INIT`. -/
theorem C2_wait_empty_vs_uninit (ws : rcl_wait_set_t)
    (timeout : Option rcl_time_t) (r r2 : TransportReport)
    (himpl : ws.impl = true)
    (hs : ws.size_of_subscriptions = 0)
    (hg : ws.size_of_guard_conditions = 0) :
    (rcl_wait ws timeout r).1 = rcl_ret_t.RCL_RET_WAIT_SET_EMPTY ∧
    (rcl_wait ws timeout r).2.1 = ws ∧
    rcl_wait ws timeout r = rcl_wait ws timeout r2 ∧
    (rcl_wait rcl_get_zero_init_wait_set timeout r).1 = rcl_ret_t.RCL_RET_NOT_INIT ∧
    (rcl_wait rcl_get_zero_init_wait_set timeout r).2.1 = rcl_get_zero_init_wait_set := by
  simp [rcl_wait, himpl, hs, hg, rcl_get_zero_init_wait_set]

/-- Witness for C2 on a wait set initialized with capacities (0, 0). -/
theorem C2_wait_empty_vs_uninit_witness :
    (rcl_wait (rcl_wait_set_init rcl_get_zero_init_wait_set 0 0 alloc_always).2
        none report_none).1 = rcl_ret_t.RCL_RET_WAIT_SET_EMPTY :=
  (C2_wait_empty_vs_uninit
    (rcl_wait_set_init rcl_get_zero_init_wait_set 0 0 alloc_always).2
    none report_none report_only1 rfl rfl rfl).1

/-- The state left by `rcl_wait` whenever it reaches the transport, i.e.
whenever its result is `RCL_RET_OK` or `RCL_RET_TIMEOUT`. -/
theorem rcl_wait_post (ws : rcl_wait_set_t) (timeout : Option rcl_time_t)
    (r : TransportReport)
    (hret : (rcl_wait ws timeout r).1 = rcl_ret_t.RCL_RET_OK ∨
      (rcl_wait ws timeout r).1 = rcl_ret_t.RCL_RET_TIMEOUT) :
    (rcl_wait ws timeout r).2.1 =
      { ws with
        subscriptions := pruneSeq r.sub_ready ws.subscriptions
        guard_conditions := pruneSeq r.guard_ready ws.guard_conditions
        pruned := true } := by
  by_cases h1 : ws.impl = true
  · by_cases h2 : ws.size_of_subscriptions = 0 ∧ ws.size_of_guard_conditions = 0
    · simp [rcl_wait, h1, h2] at hret
    · simp only [rcl_wait, h1, Bool.not_true, Bool.false_eq_true, if_false, h2]
      split <;> rfl
  · have h1f : ws.impl = false := by
      revert h1
      cases ws.impl <;> simp
    simp [rcl_wait, h1f] at hret

/-- C1: after every call to `rcl_wait` that reaches the transport
(result `RCL_RET_OK` or `RCL_RET_TIMEOUT`), both sequences keep their
length and declared size, and slot-wise each entry is retained iff it
was present and its resource became ready, every other slot being
overwritten with NULL — an in-place, order-preserving filter. -/
theorem C1_wait_prunes_in_place (ws : rcl_wait_set_t)
    (timeout : Option rcl_time_t) (r : TransportReport)
    (hret : (rcl_wait ws timeout r).1 = rcl_ret_t.RCL_RET_OK ∨
      (rcl_wait ws timeout r).1 = rcl_ret_t.RCL_RET_TIMEOUT) :
    ((rcl_wait ws timeout r).2.1).subscriptions.length = ws.subscriptions.length ∧
    ((rcl_wait ws timeout r).2.1).guard_conditions.length = ws.guard_conditions.length ∧
    ((rcl_wait ws timeout r).2.1).size_of_subscriptions = ws.size_of_subscriptions ∧
    ((rcl_wait ws timeout r).2.1).size_of_guard_conditions = ws.size_of_guard_conditions ∧
    (∀ (i h : Nat), ((rcl_wait ws timeout r).2.1).subscriptions[i]? = some (some h) ↔
      (ws.subscriptions[i]? = some (some h) ∧ r.sub_ready h = true)) ∧
    (∀ i : Nat, i < ws.subscriptions.length →
      (∀ h : Nat, ws.subscriptions[i]? = some (some h) → r.sub_ready h = false) →
      ((rcl_wait ws timeout r).2.1).subscriptions[i]? = some none) ∧
    (∀ (i h : Nat), ((rcl_wait ws timeout r).2.1).guard_conditions[i]? = some (some h) ↔
      (ws.guard_conditions[i]? = some (some h) ∧ r.guard_ready h = true)) ∧
    (∀ i : Nat, i < ws.guard_conditions.length →
      (∀ h : Nat, ws.guard_conditions[i]? = some (some h) → r.guard_ready h = false) →
      ((rcl_wait ws timeout r).2.1).guard_conditions[i]? = some none) := by
  rw [rcl_wait_post ws timeout r hret]
  refine ⟨by simp [pruneSeq], by simp [pruneSeq], rfl, rfl, ?_, ?_, ?_, ?_⟩
  · intro i h
    rw [show ({ ws with
        subscriptions := pruneSeq r.sub_ready ws.subscriptions
        guard_conditions := pruneSeq r.guard_ready ws.guard_conditions
        pruned := true } : rcl_wait_set_t).subscriptions =
      pruneSeq r.sub_ready ws.subscriptions from rfl]
    rw [pruneSeq_getElem?]
    cases hx : ws.subscriptions[i]? with
    | none => simp
    | some o => simp [pruneEntry_eq_some]
  · intro i hi hnr
    rw [show ({ ws with
        subscriptions := pruneSeq r.sub_ready ws.subscriptions
        guard_conditions := pruneSeq r.guard_ready ws.guard_conditions
        pruned := true } : rcl_wait_set_t).subscriptions =
      pruneSeq r.sub_ready ws.subscriptions from rfl]
    rw [pruneSeq_getElem?]
    cases hx : ws.subscriptions[i]? with
    | none =>
      rw [List.getElem?_eq_none_iff] at hx
      omega
    | some o =>
      have ho : pruneEntry r.sub_ready o = none := by
        apply pruneEntry_eq_none
        intro x hxo
        apply hnr x
        rw [hx, hxo]
      show some (pruneEntry r.sub_ready o) = some none
      rw [ho]
  · intro i h
    rw [show ({ ws with
        subscriptions := pruneSeq r.sub_ready ws.subscriptions
        guard_conditions := pruneSeq r.guard_ready ws.guard_conditions
        pruned := true } : rcl_wait_set_t).guard_conditions =
      pruneSeq r.guard_ready ws.guard_conditions from rfl]
    rw [pruneSeq_getElem?]
    cases hx : ws.guard_conditions[i]? with
    | none => simp
    | some o => simp [pruneEntry_eq_some]
  · intro i hi hnr
    rw [show ({ ws with
        subscriptions := pruneSeq r.sub_ready ws.subscriptions
        guard_conditions := pruneSeq r.guard_ready ws.guard_conditions
        pruned := true } : rcl_wait_set_t).guard_conditions =
      pruneSeq r.guard_ready ws.guard_conditions from rfl]
    rw [pruneSeq_getElem?]
    cases hx : ws.guard_conditions[i]? with
    | none =>
      rw [List.getElem?_eq_none_iff] at hx
      omega
    | some o =>
      have ho : pruneEntry r.guard_ready o = none := by
        apply pruneEntry_eq_none
        intro x hxo
        apply hnr x
        rw [hx, hxo]
      show some (pruneEntry r.guard_ready o) = some none
      rw [ho]

/-- Witness for C1 at the scenario from the spec: handles = [1, 2], only handle
1 ready; after the wait slot 0 is retained and slot 1 is absent. -/
theorem C1_wait_prunes_in_place_witness :
    ((rcl_wait ws_ab none report_only1).2.1).subscriptions[0]? = some (some 1) :=
  ((C1_wait_prunes_in_place ws_ab none report_only1
    (Or.inl (by decide))).2.2.2.2.1 0 1).mpr ⟨by decide, by decide⟩

/-- C3: under the timeout contract of the transport (NULL timeout blocks until
an entry becomes ready or an interrupt occurs, a zero-length duration
returns immediately, a positive duration blocks at most that long),
`rcl_wait` returns `RCL_RET_OK` exactly when at least one entry is still
present after pruning and `RCL_RET_TIMEOUT` exactly when none is. -/
theorem C3_wait_timeout_semantics (ws : rcl_wait_set_t)
    (timeout : Option rcl_time_t) (r : TransportReport)
    (himpl : ws.impl = true)
    (hcap : ¬(ws.size_of_subscriptions = 0 ∧ ws.size_of_guard_conditions = 0))
    (hresp : transport_respects_timeout ws timeout r) :
    ((rcl_wait ws timeout r).1 = rcl_ret_t.RCL_RET_OK ↔
      (anyPresent ((rcl_wait ws timeout r).2.1).subscriptions ||
       anyPresent ((rcl_wait ws timeout r).2.1).guard_conditions) = true) ∧
    ((rcl_wait ws timeout r).1 = rcl_ret_t.RCL_RET_TIMEOUT ↔
      (anyPresent ((rcl_wait ws timeout r).2.1).subscriptions ||
       anyPresent ((rcl_wait ws timeout r).2.1).guard_conditions) = false) ∧
    (∀ t : rcl_time_t, timeout = some t → rcl_time_total_ns t = 0 →
      r.elapsed_ns = 0) ∧
    (∀ t : rcl_time_t, timeout = some t → 0 < rcl_time_total_ns t →
      r.elapsed_ns ≤ rcl_time_total_ns t) ∧
    (timeout = none →
      (rcl_wait ws timeout r).1 = rcl_ret_t.RCL_RET_OK ∨ r.interrupted = true) := by
  have htime0 : ∀ t : rcl_time_t, timeout = some t → rcl_time_total_ns t = 0 →
      r.elapsed_ns = 0 := by
    intro t ht h0
    rw [ht] at hresp
    simp only [transport_respects_timeout, h0, if_true] at hresp
    exact hresp
  have htimepos : ∀ t : rcl_time_t, timeout = some t → 0 < rcl_time_total_ns t →
      r.elapsed_ns ≤ rcl_time_total_ns t := by
    intro t ht hpos
    rw [ht] at hresp
    simp only [transport_respects_timeout] at hresp
    rw [if_neg (by omega)] at hresp
    exact hresp
  by_cases hrdy : (anyPresent (pruneSeq r.sub_ready ws.subscriptions) ||
      anyPresent (pruneSeq r.guard_ready ws.guard_conditions)) = true
  · have hw : rcl_wait ws timeout r =
        (rcl_ret_t.RCL_RET_OK,
          { ws with
            subscriptions := pruneSeq r.sub_ready ws.subscriptions
            guard_conditions := pruneSeq r.guard_ready ws.guard_conditions
            pruned := true },
          timeout) := by
      simp [rcl_wait, himpl, hcap, hrdy]
    rw [hw]
    refine ⟨by simpa using hrdy, by simp [hrdy], htime0, htimepos, fun _ => Or.inl rfl⟩
  · have hrdyf : (anyPresent (pruneSeq r.sub_ready ws.subscriptions) ||
        anyPresent (pruneSeq r.guard_ready ws.guard_conditions)) = false := by
      revert hrdy
      cases anyPresent (pruneSeq r.sub_ready ws.subscriptions) ||
        anyPresent (pruneSeq r.guard_ready ws.guard_conditions) <;> simp
    have hw : rcl_wait ws timeout r =
        (rcl_ret_t.RCL_RET_TIMEOUT,
          { ws with
            subscriptions := pruneSeq r.sub_ready ws.subscriptions
            guard_conditions := pruneSeq r.guard_ready ws.guard_conditions
            pruned := true },
          timeout) := by
      simp [rcl_wait, himpl, hcap, hrdy]
    rw [hw]
    refine ⟨by simp [hrdyf], by simpa using hrdyf, htime0, htimepos, ?_⟩
    intro hnone
    rw [hnone] at hresp
    simp only [transport_respects_timeout] at hresp
    rcases hresp with hresp | hresp | hresp
    · rw [hresp] at hrdyf
      simp at hrdyf
    · rw [hresp] at hrdyf
      simp at hrdyf
    · exact Or.inr hresp

/-- Witness for C3: on the scenario wait set with only handle 1 ready and
a zero-length timeout the outcome is `RCL_RET_OK`, i.e. at least one
entry remained present after pruning. -/
theorem C3_wait_timeout_semantics_witness :
    (rcl_wait ws_ab (some { sec := 0, nsec := 0 }) report_only1).1 =
        rcl_ret_t.RCL_RET_OK ↔
      (anyPresent ((rcl_wait ws_ab (some { sec := 0, nsec := 0 })
          report_only1).2.1).subscriptions ||
       anyPresent ((rcl_wait ws_ab (some { sec := 0, nsec := 0 })
          report_only1).2.1).guard_conditions) = true :=
  (C3_wait_timeout_semantics ws_ab (some { sec := 0, nsec := 0 }) report_only1
    (by decide) (by decide)
    (by simp [transport_respects_timeout, rcl_time_total_ns, report_only1])).1

/-- Successful `rcl_wait_set_add_subscription`: on an initialized,
unpruned wait set with a free slot the handle is stored at the cursor and
the cursor advances. -/
theorem add_subscription_success (ws : rcl_wait_set_t) (s : Nat)
    (himpl : ws.impl = true) (hpr : ws.pruned = false)
    (hlt : ws.__current_subscription_offset < ws.size_of_subscriptions) :
    rcl_wait_set_add_subscription ws s =
      (rcl_ret_t.RCL_RET_OK,
        { ws with
          subscriptions :=
            ws.subscriptions.set ws.__current_subscription_offset (some s)
          __current_subscription_offset := ws.__current_subscription_offset + 1 }) := by
  rw [rcl_wait_set_add_subscription, himpl]
  rw [if_neg (by simp), if_neg (by simp [hpr]), if_neg (by omega)]

/-- Successful `rcl_wait_set_add_guard_condition`, mirroring
subscriptions. -/
theorem add_guard_condition_success (ws : rcl_wait_set_t) (gcond : Nat)
    (himpl : ws.impl = true) (hpr : ws.pruned = false)
    (hlt : ws.__current_guard_condition_offset < ws.size_of_guard_conditions) :
    rcl_wait_set_add_guard_condition ws gcond =
      (rcl_ret_t.RCL_RET_OK,
        { ws with
          guard_conditions :=
            ws.guard_conditions.set ws.__current_guard_condition_offset (some gcond)
          __current_guard_condition_offset := ws.__current_guard_condition_offset + 1 }) := by
  rw [rcl_wait_set_add_guard_condition, himpl]
  rw [if_neg (by simp), if_neg (by simp [hpr]), if_neg (by omega)]

/-- Iterated adds into the subscription sequence all succeed while the
capacity is not yet reached, advancing the cursor by the number of
calls. -/
theorem addAllSubs_spec (subs : List Nat) (ws : rcl_wait_set_t)
    (himpl : ws.impl = true) (hpr : ws.pruned = false)
    (hcap : ws.__current_subscription_offset + subs.length ≤ ws.size_of_subscriptions) :
    (addAllSubs ws subs).1.all (fun rc => rc = rcl_ret_t.RCL_RET_OK) = true ∧
    (addAllSubs ws subs).2.impl = true ∧
    (addAllSubs ws subs).2.pruned = false ∧
    (addAllSubs ws subs).2.size_of_subscriptions = ws.size_of_subscriptions ∧
    (addAllSubs ws subs).2.__current_subscription_offset =
      ws.__current_subscription_offset + subs.length := by
  induction subs generalizing ws with
  | nil => simp [addAllSubs, himpl, hpr]
  | cons s rest ih =>
    have hlt : ws.__current_subscription_offset < ws.size_of_subscriptions := by
      simp only [List.length_cons] at hcap
      omega
    have hcap2 : ws.__current_subscription_offset + 1 + rest.length ≤
        ws.size_of_subscriptions := by
      simp only [List.length_cons] at hcap
      omega
    have hrec := ih
      { ws with
        subscriptions := ws.subscriptions.set ws.__current_subscription_offset (some s)
        __current_subscription_offset := ws.__current_subscription_offset + 1 }
      himpl hpr hcap2
    simp only [addAllSubs, add_subscription_success ws s himpl hpr hlt]
    refine ⟨?_, hrec.2.1, hrec.2.2.1, hrec.2.2.2.1, ?_⟩
    · simp only [List.all_cons, hrec.1, Bool.and_true]
      simp
    · rw [hrec.2.2.2.2]
      dsimp only
      simp only [List.length_cons]
      omega

/-- Iterated adds into the guard-condition sequence, mirroring
subscriptions. -/
theorem addAllGuards_spec (gcs : List Nat) (ws : rcl_wait_set_t)
    (himpl : ws.impl = true) (hpr : ws.pruned = false)
    (hcap : ws.__current_guard_condition_offset + gcs.length ≤
      ws.size_of_guard_conditions) :
    (addAllGuards ws gcs).1.all (fun rc => rc = rcl_ret_t.RCL_RET_OK) = true ∧
    (addAllGuards ws gcs).2.impl = true ∧
    (addAllGuards ws gcs).2.pruned = false ∧
    (addAllGuards ws gcs).2.size_of_guard_conditions = ws.size_of_guard_conditions ∧
    (addAllGuards ws gcs).2.__current_guard_condition_offset =
      ws.__current_guard_condition_offset + gcs.length := by
  induction gcs generalizing ws with
  | nil => simp [addAllGuards, himpl, hpr]
  | cons gcond rest ih =>
    have hlt : ws.__current_guard_condition_offset < ws.size_of_guard_conditions := by
      simp only [List.length_cons] at hcap
      omega
    have hcap2 : ws.__current_guard_condition_offset + 1 + rest.length ≤
        ws.size_of_guard_conditions := by
      simp only [List.length_cons] at hcap
      omega
    have hrec := ih
      { ws with
        guard_conditions :=
          ws.guard_conditions.set ws.__current_guard_condition_offset (some gcond)
        __current_guard_condition_offset := ws.__current_guard_condition_offset + 1 }
      himpl hpr hcap2
    simp only [addAllGuards, add_guard_condition_success ws gcond himpl hpr hlt]
    refine ⟨?_, hrec.2.1, hrec.2.2.1, hrec.2.2.2.1, ?_⟩
    · simp only [List.all_cons, hrec.1, Bool.and_true]
      simp
    · rw [hrec.2.2.2.2]
      dsimp only
      simp only [List.length_cons]
      omega

/-- C4: on a wait set initialized with capacities (h, g), h adds into the
subscription sequence (and g into the guard-condition sequence) all
succeed — each appending at the current cursor and advancing it — and the
next add fails `RCL_RET_WAIT_SET_FULL`; on a zero-initialized wait set an
add fails `RCL_RET_NOT_INIT`; and after `resize(subscriptions, 0)` an add
fails `RCL_RET_WAIT_SET_FULL`, for every capacity including h = 0. -/
theorem C4_add_handle_capacity (h g : Nat) (a : Nat → Bool)
    (subs gcs : List Nat) (x : Nat)
    (ha : a h = true) (hag : a g = true)
    (hlen : subs.length = h) (hglen : gcs.length = g) :
    (addAllSubs (rcl_wait_set_init rcl_get_zero_init_wait_set h g a).2 subs).1.all
        (fun rc => rc = rcl_ret_t.RCL_RET_OK) = true ∧
    (rcl_wait_set_add_subscription
        (addAllSubs (rcl_wait_set_init rcl_get_zero_init_wait_set h g a).2 subs).2
        x).1 = rcl_ret_t.RCL_RET_WAIT_SET_FULL ∧
    (addAllGuards (rcl_wait_set_init rcl_get_zero_init_wait_set h g a).2 gcs).1.all
        (fun rc => rc = rcl_ret_t.RCL_RET_OK) = true ∧
    (rcl_wait_set_add_guard_condition
        (addAllGuards (rcl_wait_set_init rcl_get_zero_init_wait_set h g a).2 gcs).2
        x).1 = rcl_ret_t.RCL_RET_WAIT_SET_FULL ∧
    (rcl_wait_set_add_subscription rcl_get_zero_init_wait_set x).1 =
      rcl_ret_t.RCL_RET_NOT_INIT ∧
    (rcl_wait_set_add_guard_condition rcl_get_zero_init_wait_set x).1 =
      rcl_ret_t.RCL_RET_NOT_INIT ∧
    (∀ ws s, ws.impl = true → ws.pruned = false →
      ws.__current_subscription_offset < ws.size_of_subscriptions →
      rcl_wait_set_add_subscription ws s =
        (rcl_ret_t.RCL_RET_OK,
          { ws with
            subscriptions :=
              ws.subscriptions.set ws.__current_subscription_offset (some s)
            __current_subscription_offset :=
              ws.__current_subscription_offset + 1 })) ∧
    (rcl_wait_set_add_subscription
        (rcl_wait_set_resize_subscriptions
          (rcl_wait_set_init rcl_get_zero_init_wait_set h g a).2 0).2 x).1 =
      rcl_ret_t.RCL_RET_WAIT_SET_FULL := by
  have hws0 : (rcl_wait_set_init rcl_get_zero_init_wait_set h g a).2 =
      { subscriptions := List.replicate h none
        size_of_subscriptions := h
        __current_subscription_offset := 0
        guard_conditions := List.replicate g none
        size_of_guard_conditions := g
        __current_guard_condition_offset := 0
        allocator := a
        pruned := false
        impl := true } := by
    rw [rcl_wait_set_init_zero h g a ha hag]
  rw [hws0]
  have hsub := addAllSubs_spec subs
    { subscriptions := List.replicate h none
      size_of_subscriptions := h
      __current_subscription_offset := 0
      guard_conditions := List.replicate g none
      size_of_guard_conditions := g
      __current_guard_condition_offset := 0
      allocator := a
      pruned := false
      impl := true } rfl rfl (by dsimp only; omega)
  have hgd := addAllGuards_spec gcs
    { subscriptions := List.replicate h none
      size_of_subscriptions := h
      __current_subscription_offset := 0
      guard_conditions := List.replicate g none
      size_of_guard_conditions := g
      __current_guard_condition_offset := 0
      allocator := a
      pruned := false
      impl := true } rfl rfl (by dsimp only; omega)
  refine ⟨hsub.1, ?_, hgd.1, ?_, rfl, rfl,
    fun ws s h1 h2 h3 => add_subscription_success ws s h1 h2 h3, ?_⟩
  · rw [rcl_wait_set_add_subscription, hsub.2.1]
    rw [if_neg (by simp), if_neg (by simp [hsub.2.2.1])]
    rw [if_pos (by rw [hsub.2.2.2.1, hsub.2.2.2.2]; dsimp only; omega)]
  · rw [rcl_wait_set_add_guard_condition, hgd.2.1]
    rw [if_neg (by simp), if_neg (by simp [hgd.2.2.1])]
    rw [if_pos (by rw [hgd.2.2.2.1, hgd.2.2.2.2]; dsimp only; omega)]
  · by_cases h0 : (0 : Nat) = h
    · rw [rcl_wait_set_resize_subscriptions]
      dsimp only
      rw [if_pos h0]
      rw [rcl_wait_set_add_subscription]
      dsimp only
      rw [if_neg (by simp), if_neg (by simp), if_pos (by omega)]
    · rw [rcl_wait_set_resize_subscriptions]
      dsimp only
      rw [if_neg h0, if_pos rfl]
      rw [rcl_wait_set_add_subscription]
      dsimp only
      rw [if_neg (by simp), if_neg (by simp), if_pos (by omega)]

/-- Witness for C4 at capacities (2, 1): the third add into the
subscription sequence fails `RCL_RET_WAIT_SET_FULL`. -/
theorem C4_add_handle_capacity_witness :
    (rcl_wait_set_add_subscription
        (addAllSubs (rcl_wait_set_init rcl_get_zero_init_wait_set 2 1 alloc_always).2
          [5, 7]).2 11).1 = rcl_ret_t.RCL_RET_WAIT_SET_FULL :=
  (C4_add_handle_capacity 2 1 alloc_always [5, 7] [9] 11 rfl rfl rfl rfl).2.1

/-- Setting slot 0 of a non-empty list makes slot 0 hold the new value. -/
theorem set_zero_getElem? (xs : List (Option Nat)) (v : Option Nat)
    (hx : 0 < xs.length) : (xs.set 0 v)[0]? = some v := by
  cases xs with
  | nil => simp at hx
  | cons a l => simp

/-- C7: `clear` on an initialized wait set succeeds, sets every entry of
the chosen sequence to NULL and resets its cursor to 0, so that the next
add for that sequence succeeds and inserts at index 0; `clear` on a
zero-initialized wait set fails `RCL_RET_NOT_INIT`. -/
theorem C7_clear_resets (ws : rcl_wait_set_t) (s gcond : Nat)
    (himpl : ws.impl = true) :
    (rcl_wait_set_clear_subscriptions ws).1 = rcl_ret_t.RCL_RET_OK ∧
    ((rcl_wait_set_clear_subscriptions ws).2).subscriptions =
      List.replicate ws.size_of_subscriptions none ∧
    ((rcl_wait_set_clear_subscriptions ws).2).__current_subscription_offset = 0 ∧
    (0 < ws.size_of_subscriptions →
      (rcl_wait_set_add_subscription
          (rcl_wait_set_clear_subscriptions ws).2 s).1 = rcl_ret_t.RCL_RET_OK ∧
      ((rcl_wait_set_add_subscription
          (rcl_wait_set_clear_subscriptions ws).2 s).2).subscriptions[0]? =
        some (some s) ∧
      ((rcl_wait_set_add_subscription
          (rcl_wait_set_clear_subscriptions ws).2 s).2).__current_subscription_offset
        = 1) ∧
    (rcl_wait_set_clear_guard_conditions ws).1 = rcl_ret_t.RCL_RET_OK ∧
    ((rcl_wait_set_clear_guard_conditions ws).2).guard_conditions =
      List.replicate ws.size_of_guard_conditions none ∧
    ((rcl_wait_set_clear_guard_conditions ws).2).__current_guard_condition_offset
      = 0 ∧
    (0 < ws.size_of_guard_conditions →
      (rcl_wait_set_add_guard_condition
          (rcl_wait_set_clear_guard_conditions ws).2 gcond).1 =
        rcl_ret_t.RCL_RET_OK ∧
      ((rcl_wait_set_add_guard_condition
          (rcl_wait_set_clear_guard_conditions ws).2 gcond).2).guard_conditions[0]?
        = some (some gcond) ∧
      ((rcl_wait_set_add_guard_condition
          (rcl_wait_set_clear_guard_conditions ws).2
          gcond).2).__current_guard_condition_offset = 1) ∧
    (rcl_wait_set_clear_subscriptions rcl_get_zero_init_wait_set).1 =
      rcl_ret_t.RCL_RET_NOT_INIT ∧
    (rcl_wait_set_clear_guard_conditions rcl_get_zero_init_wait_set).1 =
      rcl_ret_t.RCL_RET_NOT_INIT := by
  have hcs : rcl_wait_set_clear_subscriptions ws =
      (rcl_ret_t.RCL_RET_OK,
        { ws with
          subscriptions := List.replicate ws.size_of_subscriptions none
          __current_subscription_offset := 0
          pruned := false }) := by
    rw [rcl_wait_set_clear_subscriptions]
    rw [if_neg (by simp [himpl])]
  have hcg : rcl_wait_set_clear_guard_conditions ws =
      (rcl_ret_t.RCL_RET_OK,
        { ws with
          guard_conditions := List.replicate ws.size_of_guard_conditions none
          __current_guard_condition_offset := 0
          pruned := false }) := by
    rw [rcl_wait_set_clear_guard_conditions]
    rw [if_neg (by simp [himpl])]
  rw [hcs, hcg]
  refine ⟨rfl, rfl, rfl, ?_, rfl, rfl, rfl, ?_, rfl, rfl⟩
  · intro hpos
    have hadd := add_subscription_success
      { ws with
        subscriptions := List.replicate ws.size_of_subscriptions none
        __current_subscription_offset := 0
        pruned := false } s himpl rfl (by dsimp only; omega)
    rw [hadd]
    refine ⟨rfl, ?_, rfl⟩
    dsimp only
    exact set_zero_getElem? _ _ (by simp [hpos])
  · intro hpos
    have hadd := add_guard_condition_success
      { ws with
        guard_conditions := List.replicate ws.size_of_guard_conditions none
        __current_guard_condition_offset := 0
        pruned := false } gcond himpl rfl (by dsimp only; omega)
    rw [hadd]
    refine ⟨rfl, ?_, rfl⟩
    dsimp only
    exact set_zero_getElem? _ _ (by simp [hpos])

/-- Witness for C7: clearing the populated scenario wait set and adding
handle 9 lands it in slot 0. -/
theorem C7_clear_resets_witness :
    ((rcl_wait_set_add_subscription
        (rcl_wait_set_clear_subscriptions ws_ab).2 9).2).subscriptions[0]? =
      some (some 9) :=
  ((C7_clear_resets ws_ab 9 9 (by decide)).2.2.2.1 (by decide)).2.1

/-- C8: `resize(kind, new_size)` succeeds or fails only with
`RCL_RET_BAD_ALLOC` (AllocationError); it is a full no-op when the
requested size equals the current one; a size of 0 always succeeds and
yields an empty sequence with no storage; any successful resize to a new
size leaves exactly that capacity with every entry NULL and the cursor
reset (destructive, like a clear); a failed allocation leaves the wait
set untouched. It may be called on a zero-initialized wait set (the
statement quantifies over every wait set, including that one). -/
theorem C8_resize_semantics (ws : rcl_wait_set_t) (n : Nat) :
    ((rcl_wait_set_resize_subscriptions ws n).1 = rcl_ret_t.RCL_RET_OK ∨
      (rcl_wait_set_resize_subscriptions ws n).1 = rcl_ret_t.RCL_RET_BAD_ALLOC) ∧
    (n = ws.size_of_subscriptions →
      rcl_wait_set_resize_subscriptions ws n = (rcl_ret_t.RCL_RET_OK, ws)) ∧
    (n = 0 →
      (rcl_wait_set_resize_subscriptions ws n).1 = rcl_ret_t.RCL_RET_OK ∧
      ((rcl_wait_set_resize_subscriptions ws n).2).size_of_subscriptions = 0) ∧
    ((rcl_wait_set_resize_subscriptions ws n).1 = rcl_ret_t.RCL_RET_OK →
      n ≠ ws.size_of_subscriptions →
      ((rcl_wait_set_resize_subscriptions ws n).2).size_of_subscriptions = n ∧
      ((rcl_wait_set_resize_subscriptions ws n).2).subscriptions =
        List.replicate n none ∧
      ((rcl_wait_set_resize_subscriptions ws n).2).__current_subscription_offset
        = 0) ∧
    ((rcl_wait_set_resize_subscriptions ws n).1 = rcl_ret_t.RCL_RET_BAD_ALLOC →
      (rcl_wait_set_resize_subscriptions ws n).2 = ws ∧
      ws.allocator n = false) ∧
    ((rcl_wait_set_resize_guard_conditions ws n).1 = rcl_ret_t.RCL_RET_OK ∨
      (rcl_wait_set_resize_guard_conditions ws n).1 = rcl_ret_t.RCL_RET_BAD_ALLOC) ∧
    (n = ws.size_of_guard_conditions →
      rcl_wait_set_resize_guard_conditions ws n = (rcl_ret_t.RCL_RET_OK, ws)) ∧
    (n = 0 →
      (rcl_wait_set_resize_guard_conditions ws n).1 = rcl_ret_t.RCL_RET_OK ∧
      ((rcl_wait_set_resize_guard_conditions ws n).2).size_of_guard_conditions
        = 0) ∧
    ((rcl_wait_set_resize_guard_conditions ws n).1 = rcl_ret_t.RCL_RET_OK →
      n ≠ ws.size_of_guard_conditions →
      ((rcl_wait_set_resize_guard_conditions ws n).2).size_of_guard_conditions
        = n ∧
      ((rcl_wait_set_resize_guard_conditions ws n).2).guard_conditions =
        List.replicate n none ∧
      ((rcl_wait_set_resize_guard_conditions
          ws n).2).__current_guard_condition_offset = 0) ∧
    ((rcl_wait_set_resize_guard_conditions ws n).1 = rcl_ret_t.RCL_RET_BAD_ALLOC →
      (rcl_wait_set_resize_guard_conditions ws n).2 = ws ∧
      ws.allocator n = false) := by
  have hsub :
      ((rcl_wait_set_resize_subscriptions ws n).1 = rcl_ret_t.RCL_RET_OK ∨
        (rcl_wait_set_resize_subscriptions ws n).1 = rcl_ret_t.RCL_RET_BAD_ALLOC) ∧
      (n = ws.size_of_subscriptions →
        rcl_wait_set_resize_subscriptions ws n = (rcl_ret_t.RCL_RET_OK, ws)) ∧
      (n = 0 →
        (rcl_wait_set_resize_subscriptions ws n).1 = rcl_ret_t.RCL_RET_OK ∧
        ((rcl_wait_set_resize_subscriptions ws n).2).size_of_subscriptions = 0) ∧
      ((rcl_wait_set_resize_subscriptions ws n).1 = rcl_ret_t.RCL_RET_OK →
        n ≠ ws.size_of_subscriptions →
        ((rcl_wait_set_resize_subscriptions ws n).2).size_of_subscriptions = n ∧
        ((rcl_wait_set_resize_subscriptions ws n).2).subscriptions =
          List.replicate n none ∧
        ((rcl_wait_set_resize_subscriptions ws n).2).__current_subscription_offset
          = 0) ∧
      ((rcl_wait_set_resize_subscriptions ws n).1 = rcl_ret_t.RCL_RET_BAD_ALLOC →
        (rcl_wait_set_resize_subscriptions ws n).2 = ws ∧
        ws.allocator n = false) := by
    by_cases h1 : n = ws.size_of_subscriptions
    · rw [rcl_wait_set_resize_subscriptions, if_pos h1]
      refine ⟨Or.inl rfl, fun _ => rfl, ?_, ?_, ?_⟩
      · intro h0
        exact ⟨rfl, by dsimp only; omega⟩
      · intro _ hne
        exact absurd h1 hne
      · intro hbad
        simp at hbad
    · rw [rcl_wait_set_resize_subscriptions, if_neg h1]
      by_cases h2 : n = 0
      · rw [if_pos h2]
        refine ⟨Or.inl rfl, fun hh => absurd hh h1, fun _ => ⟨rfl, rfl⟩, ?_, ?_⟩
        · intro _ _
          refine ⟨by dsimp only; omega, ?_, rfl⟩
          rw [h2]
          rfl
        · intro hbad
          simp at hbad
      · rw [if_neg h2]
        by_cases h3 : ws.allocator n = true
        · rw [if_pos h3]
          refine ⟨Or.inl rfl, fun hh => absurd hh h1, fun h0 => absurd h0 h2,
            fun _ _ => ⟨rfl, rfl, rfl⟩, ?_⟩
          intro hbad
          simp at hbad
        · have h3f : ws.allocator n = false := by
            revert h3
            cases ws.allocator n <;> simp
          rw [if_neg h3]
          refine ⟨Or.inr rfl, fun hh => absurd hh h1, fun h0 => absurd h0 h2, ?_,
            fun _ => ⟨rfl, h3f⟩⟩
          intro hok
          simp at hok
  have hgd :
      ((rcl_wait_set_resize_guard_conditions ws n).1 = rcl_ret_t.RCL_RET_OK ∨
        (rcl_wait_set_resize_guard_conditions ws n).1 =
          rcl_ret_t.RCL_RET_BAD_ALLOC) ∧
      (n = ws.size_of_guard_conditions →
        rcl_wait_set_resize_guard_conditions ws n = (rcl_ret_t.RCL_RET_OK, ws)) ∧
      (n = 0 →
        (rcl_wait_set_resize_guard_conditions ws n).1 = rcl_ret_t.RCL_RET_OK ∧
        ((rcl_wait_set_resize_guard_conditions ws n).2).size_of_guard_conditions
          = 0) ∧
      ((rcl_wait_set_resize_guard_conditions ws n).1 = rcl_ret_t.RCL_RET_OK →
        n ≠ ws.size_of_guard_conditions →
        ((rcl_wait_set_resize_guard_conditions ws n).2).size_of_guard_conditions
          = n ∧
        ((rcl_wait_set_resize_guard_conditions ws n).2).guard_conditions =
          List.replicate n none ∧
        ((rcl_wait_set_resize_guard_conditions
            ws n).2).__current_guard_condition_offset = 0) ∧
      ((rcl_wait_set_resize_guard_conditions ws n).1 =
          rcl_ret_t.RCL_RET_BAD_ALLOC →
        (rcl_wait_set_resize_guard_conditions ws n).2 = ws ∧
        ws.allocator n = false) := by
    by_cases h1 : n = ws.size_of_guard_conditions
    · rw [rcl_wait_set_resize_guard_conditions, if_pos h1]
      refine ⟨Or.inl rfl, fun _ => rfl, ?_, ?_, ?_⟩
      · intro h0
        exact ⟨rfl, by dsimp only; omega⟩
      · intro _ hne
        exact absurd h1 hne
      · intro hbad
        simp at hbad
    · rw [rcl_wait_set_resize_guard_conditions, if_neg h1]
      by_cases h2 : n = 0
      · rw [if_pos h2]
        refine ⟨Or.inl rfl, fun hh => absurd hh h1, fun _ => ⟨rfl, rfl⟩, ?_, ?_⟩
        · intro _ _
          refine ⟨by dsimp only; omega, ?_, rfl⟩
          rw [h2]
          rfl
        · intro hbad
          simp at hbad
      · rw [if_neg h2]
        by_cases h3 : ws.allocator n = true
        · rw [if_pos h3]
          refine ⟨Or.inl rfl, fun hh => absurd hh h1, fun h0 => absurd h0 h2,
            fun _ _ => ⟨rfl, rfl, rfl⟩, ?_⟩
          intro hbad
          simp at hbad
        · have h3f : ws.allocator n = false := by
            revert h3
            cases ws.allocator n <;> simp
          rw [if_neg h3]
          refine ⟨Or.inr rfl, fun hh => absurd hh h1, fun h0 => absurd h0 h2, ?_,
            fun _ => ⟨rfl, h3f⟩⟩
          intro hok
          simp at hok
  exact ⟨hsub.1, hsub.2.1, hsub.2.2.1, hsub.2.2.2.1, hsub.2.2.2.2,
    hgd.1, hgd.2.1, hgd.2.2.1, hgd.2.2.2.1, hgd.2.2.2.2⟩

/-- Witness for C8: growing the subscription sequence of the scenario wait set
from capacity 2 to 3 succeeds and leaves 3 NULL slots with the cursor
reset. -/
theorem C8_resize_semantics_witness :
    ((rcl_wait_set_resize_subscriptions ws_ab 3).2).size_of_subscriptions = 3 ∧
    ((rcl_wait_set_resize_subscriptions ws_ab 3).2).subscriptions =
      List.replicate 3 none ∧
    ((rcl_wait_set_resize_subscriptions ws_ab 3).2).__current_subscription_offset
      = 0 :=
  (C8_resize_semantics ws_ab 3).2.2.2.1 (by decide) (by decide)

/-- While the pruned flag is set, adding a subscription never succeeds. -/
theorem add_subscription_fails_when_pruned (ws : rcl_wait_set_t)
    (hpr : ws.pruned = true) (x : Nat) :
    (rcl_wait_set_add_subscription ws x).1 ≠ rcl_ret_t.RCL_RET_OK := by
  rw [rcl_wait_set_add_subscription]
  by_cases hi : ws.impl = true
  · rw [hi]
    rw [if_neg (by simp), if_pos (by simp [hpr])]
    simp
  · have hif : ws.impl = false := by
      revert hi
      cases ws.impl <;> simp
    rw [hif]
    simp

/-- While the pruned flag is set, adding a guard condition never
succeeds. -/
theorem add_guard_condition_fails_when_pruned (ws : rcl_wait_set_t)
    (hpr : ws.pruned = true) (x : Nat) :
    (rcl_wait_set_add_guard_condition ws x).1 ≠ rcl_ret_t.RCL_RET_OK := by
  rw [rcl_wait_set_add_guard_condition]
  by_cases hi : ws.impl = true
  · rw [hi]
    rw [if_neg (by simp), if_pos (by simp [hpr])]
    simp
  · have hif : ws.impl = false := by
      revert hi
      cases ws.impl <;> simp
    rw [hif]
    simp

/-- `rcl_wait_set_init` preserves the structural invariant. -/
theorem inv_init (ws : rcl_wait_set_t) (h g : Nat) (a : Nat → Bool)
    (hinv : WaitSetInv ws) : WaitSetInv (rcl_wait_set_init ws h g a).2 := by
  rw [rcl_wait_set_init]
  split
  · exact hinv
  · split
    · exact ⟨by simp, by simp, by simp, by simp⟩
    · exact hinv

/-- `rcl_wait_set_fini` preserves the structural invariant. -/
theorem inv_fini (ws : rcl_wait_set_t) :
    WaitSetInv (rcl_wait_set_fini ws).2 :=
  ⟨rfl, rfl, Nat.le_refl 0, Nat.le_refl 0⟩

/-- `rcl_wait_set_add_subscription` preserves the structural invariant. -/
theorem inv_add_subscription (ws : rcl_wait_set_t) (x : Nat)
    (hinv : WaitSetInv ws) :
    WaitSetInv (rcl_wait_set_add_subscription ws x).2 := by
  obtain ⟨l1, l2, c1, c2⟩ := hinv
  rw [rcl_wait_set_add_subscription]
  split
  · exact ⟨l1, l2, c1, c2⟩
  · split
    · exact ⟨l1, l2, c1, c2⟩
    · split
      · exact ⟨l1, l2, c1, c2⟩
      · next hfull =>
        refine ⟨?_, l2, ?_, c2⟩
        · dsimp only
          rw [List.length_set]
          exact l1
        · dsimp only
          omega

/-- `rcl_wait_set_add_guard_condition` preserves the structural
invariant. -/
theorem inv_add_guard_condition (ws : rcl_wait_set_t) (x : Nat)
    (hinv : WaitSetInv ws) :
    WaitSetInv (rcl_wait_set_add_guard_condition ws x).2 := by
  obtain ⟨l1, l2, c1, c2⟩ := hinv
  rw [rcl_wait_set_add_guard_condition]
  split
  · exact ⟨l1, l2, c1, c2⟩
  · split
    · exact ⟨l1, l2, c1, c2⟩
    · split
      · exact ⟨l1, l2, c1, c2⟩
      · next hfull =>
        refine ⟨l1, ?_, c1, ?_⟩
        · dsimp only
          rw [List.length_set]
          exact l2
        · dsimp only
          omega

/-- `rcl_wait_set_clear_subscriptions` preserves the structural
invariant. -/
theorem inv_clear_subscriptions (ws : rcl_wait_set_t)
    (hinv : WaitSetInv ws) :
    WaitSetInv (rcl_wait_set_clear_subscriptions ws).2 := by
  obtain ⟨l1, l2, c1, c2⟩ := hinv
  rw [rcl_wait_set_clear_subscriptions]
  split
  · exact ⟨l1, l2, c1, c2⟩
  · exact ⟨by simp, l2, by simp, c2⟩

/-- `rcl_wait_set_clear_guard_conditions` preserves the structural
invariant. -/
theorem inv_clear_guard_conditions (ws : rcl_wait_set_t)
    (hinv : WaitSetInv ws) :
    WaitSetInv (rcl_wait_set_clear_guard_conditions ws).2 := by
  obtain ⟨l1, l2, c1, c2⟩ := hinv
  rw [rcl_wait_set_clear_guard_conditions]
  split
  · exact ⟨l1, l2, c1, c2⟩
  · exact ⟨l1, by simp, c1, by simp⟩

/-- `rcl_wait_set_resize_subscriptions` preserves the structural
invariant. -/
theorem inv_resize_subscriptions (ws : rcl_wait_set_t) (n : Nat)
    (hinv : WaitSetInv ws) :
    WaitSetInv (rcl_wait_set_resize_subscriptions ws n).2 := by
  obtain ⟨l1, l2, c1, c2⟩ := hinv
  rw [rcl_wait_set_resize_subscriptions]
  split
  · exact ⟨l1, l2, c1, c2⟩
  · split
    · exact ⟨by simp, l2, by simp, c2⟩
    · split
      · exact ⟨by simp, l2, by simp, c2⟩
      · exact ⟨l1, l2, c1, c2⟩

/-- `rcl_wait_set_resize_guard_conditions` preserves the structural
invariant. -/
theorem inv_resize_guard_conditions (ws : rcl_wait_set_t) (n : Nat)
    (hinv : WaitSetInv ws) :
    WaitSetInv (rcl_wait_set_resize_guard_conditions ws n).2 := by
  obtain ⟨l1, l2, c1, c2⟩ := hinv
  rw [rcl_wait_set_resize_guard_conditions]
  split
  · exact ⟨l1, l2, c1, c2⟩
  · split
    · exact ⟨l1, by simp, c1, by simp⟩
    · split
      · exact ⟨l1, by simp, c1, by simp⟩
      · exact ⟨l1, l2, c1, c2⟩

/-- `rcl_wait` preserves the structural invariant. -/
theorem inv_wait (ws : rcl_wait_set_t) (t : Option rcl_time_t)
    (r : TransportReport) (hinv : WaitSetInv ws) :
    WaitSetInv (rcl_wait ws t r).2.1 := by
  obtain ⟨l1, l2, c1, c2⟩ := hinv
  rw [rcl_wait]
  split
  · exact ⟨l1, l2, c1, c2⟩
  · split
    · exact ⟨l1, l2, c1, c2⟩
    · dsimp only
      split
      · exact ⟨by simp [pruneSeq, l1], by simp [pruneSeq, l2], c1, c2⟩
      · exact ⟨by simp [pruneSeq, l1], by simp [pruneSeq, l2], c1, c2⟩

/-- C9: in every wait-set state reachable through the public operations,
the length of each sequence equals its declared capacity, each insertion
cursor lies in [0, capacity], and while the pruned flag is set every add
fails until the sequence is cleared. -/
theorem C9_reachable_invariant (ws : rcl_wait_set_t)
    (hr : ReachableWaitSet ws) :
    WaitSetInv ws ∧
    (ws.pruned = true → ∀ x : Nat,
      (rcl_wait_set_add_subscription ws x).1 ≠ rcl_ret_t.RCL_RET_OK ∧
      (rcl_wait_set_add_guard_condition ws x).1 ≠ rcl_ret_t.RCL_RET_OK) := by
  have hblock : ∀ w : rcl_wait_set_t, w.pruned = true → ∀ x : Nat,
      (rcl_wait_set_add_subscription w x).1 ≠ rcl_ret_t.RCL_RET_OK ∧
      (rcl_wait_set_add_guard_condition w x).1 ≠ rcl_ret_t.RCL_RET_OK :=
    fun w hpr x =>
      ⟨add_subscription_fails_when_pruned w hpr x,
       add_guard_condition_fails_when_pruned w hpr x⟩
  refine ⟨?_, hblock ws⟩
  induction hr with
  | zero => exact ⟨rfl, rfl, Nat.le_refl 0, Nat.le_refl 0⟩
  | step_init w h g a _ ih => exact inv_init w h g a ih
  | step_fini w _ ih => exact inv_fini w
  | step_add_sub w x _ ih => exact inv_add_subscription w x ih
  | step_add_guard w x _ ih => exact inv_add_guard_condition w x ih
  | step_clear_sub w _ ih => exact inv_clear_subscriptions w ih
  | step_clear_guard w _ ih => exact inv_clear_guard_conditions w ih
  | step_resize_sub w n _ ih => exact inv_resize_subscriptions w n ih
  | step_resize_guard w n _ ih => exact inv_resize_guard_conditions w n ih
  | step_wait w t r _ ih => exact inv_wait w t r ih

/-- Witness for C9 at a reachable state: after a wait on the scenario
wait set the pruned flag is set, and an add into the subscription
sequence fails. -/
theorem C9_reachable_invariant_witness :
    (rcl_wait_set_add_subscription (rcl_wait ws_ab none report_only1).2.1 7).1 ≠
      rcl_ret_t.RCL_RET_OK :=
  ((C9_reachable_invariant (rcl_wait ws_ab none report_only1).2.1
    (ReachableWaitSet.step_wait ws_ab none report_only1
      (ReachableWaitSet.step_add_sub _ 2
        (ReachableWaitSet.step_add_sub _ 1
          (ReachableWaitSet.step_init rcl_get_zero_init_wait_set 2 0 alloc_always
            ReachableWaitSet.zero))))).2 (by decide) 7).1

end RclWait
